import Mathlib

/-!
Shallow embedding of the conflict/overlap constraint model and schedule
verifier of the timetable pipeline.

Embedded source files:
* `src/timetable/scripts/stage3/generate_overlap_matrix.py`
  (`OverlapMatrixGenerator`)
* `src/timetable/scripts/stage3/constraint_builder.py`
  (`ConstraintBuilder._get_student_group_conflicts`)
* `src/timetable/scripts/stage6/analyze_schedule.py` (`ScheduleAnalyzer`)

Python dicts are modelled as insertion-ordered association lists,
Python sets appearing in the source as duplicate-free lists (dedup in
insertion order; the final results that matter are sorted anyway),
`sorted` as insertion sort over the `String` linear order, and optional
JSON fields as `Option`.
-/

namespace Timetable

/-- Python dict lookup (`d[k]` / `k in d`): first entry with the given key. -/
def dictLookup {β : Type} : List (String × β) → String → Option β
  | [], _ => none
  | (k', v) :: rest, k => if k' == k then some v else dictLookup rest k

/-- Does `pat` match the front of the character list? Helper for substring
containment. -/
def leadMatch : List Char → List Char → Bool
  | [], _ => true
  | _ :: _, [] => false
  | a :: as, b :: bs => a == b && leadMatch as bs

/-- Does `pat` occur contiguously inside the character list? -/
def containsSeq (pat : List Char) : List Char → Bool
  | [] => pat.isEmpty
  | c :: rest => leadMatch pat (c :: rest) || containsSeq pat rest

/-- Python's substring containment test `pat in s`. -/
def strContains (s pat : String) : Bool :=
  containsSeq pat.data s.data

/-- Strict lexicographic comparison of character lists by code point:
Python's `<` on strings. -/
def charListLtb : List Char → List Char → Bool
  | [], [] => false
  | [], _ :: _ => true
  | _ :: _, [] => false
  | a :: as, b :: bs => if a == b then charListLtb as bs else decide (a.toNat < b.toNat)

/-- Python's `<=` on strings (total, so the negation of `>` ). -/
def strLeb (a b : String) : Bool :=
  !charListLtb b.data a.data

/-- `strLeb` as the ordering relation Python's `sorted` sorts by. -/
def pyStrLe (a b : String) : Prop :=
  strLeb a b = true

instance : DecidableRel pyStrLe := fun a b => by
  unfold pyStrLe; infer_instance

/-- Python's `sorted(xs)` over strings. -/
def pySorted (xs : List String) : List String :=
  List.insertionSort pyStrLe xs

/-- Python's `sorted(list(set(xs)))` over strings: duplicates removed, then
sorted. -/
def pySortedSet (xs : List String) : List String :=
  List.insertionSort pyStrLe xs.dedup

/-! ## Stage 3: `generate_overlap_matrix.py` — the hierarchy model

`studentGroups.json` gives each hierarchy entry optional `parent`,
optional `parents` and a `children` list (`.get("children", [])`
defaults a missing key to the empty list). -/

/-- One value of the `groupHierarchy` dict of `studentGroups.json`. -/
structure HierarchyEntry where
  parent : Option String
  parents : Option (List String)
  children : List String
  deriving Repr, DecidableEq

/-- The `groupHierarchy` dict: group id to hierarchy entry. -/
abbrev Hierarchy := List (String × HierarchyEntry)

/-- `OverlapMatrixGenerator._get_children`. -/
def getChildren (h : Hierarchy) (groupId : String) : List String :=
  match dictLookup h groupId with
  | some e => e.children
  | none => []

/-- `OverlapMatrixGenerator._get_parent` (the single-`parent` key only). -/
def getParent (h : Hierarchy) (groupId : String) : Option String :=
  match dictLookup h groupId with
  | some e => e.parent
  | none => none

/-- `OverlapMatrixGenerator._get_parents`: a present `parent` key wins,
otherwise the `parents` key, otherwise `[]`. -/
def getParents (h : Hierarchy) (groupId : String) : List String :=
  match dictLookup h groupId with
  | some e =>
    match e.parent with
    | some p => [p]
    | none => e.parents.getD []
  | none => []

/-- `OverlapMatrixGenerator._get_elective_category`: substring sniffing on
the group id (`"ELEC_AD" in group_id` / `"ELEC_SS" in group_id`). -/
def getElectiveCategory (groupId : String) : Option String :=
  if strContains groupId "ELEC_AD" then some "AD"
  else if strContains groupId "ELEC_SS" then some "SS"
  else none

/-- The disjointness test `cat1 and cat2 and cat1 != cat2` of
`_shares_students_with`. -/
def catDisjoint : Option String → Option String → Bool
  | some c1, some c2 => c1 != c2
  | _, _ => false

/-- The same-single-parent test of `_shares_students_with`
(`parent_of_1 and parent_of_2 and parent_of_1 == parent_of_2`). -/
def sameSingleParent (h : Hierarchy) (g1 g2 : String) : Bool :=
  match getParent h g1, getParent h g2 with
  | some p1, some p2 => p1 == p2
  | _, _ => false

/-- The first mixed-group block of `_shares_students_with`: `group1` has
more than one parent and `group2` is one of those parents, or a child of
one of them whose elective category is absent or equals `group1`'s. -/
def mixedOverlap1 (h : Hierarchy) (g1 g2 : String) : Bool :=
  let ps := getParents h g1
  let cat1 := getElectiveCategory g1
  let cat2 := getElectiveCategory g2
  decide (1 < ps.length) &&
    (ps.contains g2 ||
      ps.any fun p =>
        (getChildren h p).contains g2 && (cat2.isNone || cat1 == cat2))

/-- The second mixed-group block of `_shares_students_with`, with the
roles of the two groups mirrored exactly as in the source. -/
def mixedOverlap2 (h : Hierarchy) (g1 g2 : String) : Bool :=
  let ps := getParents h g2
  let cat1 := getElectiveCategory g1
  let cat2 := getElectiveCategory g2
  decide (1 < ps.length) &&
    (ps.contains g1 ||
      ps.any fun p =>
        (getChildren h p).contains g1 && (cat1.isNone || cat1 == cat2))

/-- The early-return chain of `_shares_students_with`: arguments are the
seven tests in source order; the second (`catDisjoint`) returns `False`,
every other hit returns `True`, falling through returns `False`. -/
def sharesChain (a b c d e f g : Bool) : Bool :=
  if a then true
  else if b then false
  else if c then true
  else if d then true
  else if e then true
  else if f then true
  else if g then true
  else false

/-- `OverlapMatrixGenerator._shares_students_with`. -/
def sharesStudentsWith (h : Hierarchy) (g1 g2 : String) : Bool :=
  sharesChain
    (g1 == g2)
    (catDisjoint (getElectiveCategory g1) (getElectiveCategory g2))
    ((getChildren h g1).contains g2)
    ((getChildren h g2).contains g1)
    (sameSingleParent h g1 g2)
    (mixedOverlap1 h g1 g2)
    (mixedOverlap2 h g1 g2)

/-- `OverlapMatrixGenerator._can_run_parallel`. -/
def canRunParallel (h : Hierarchy) (g1 g2 : String) : Bool :=
  if sharesStudentsWith h g1 g2 then false
  else if [("MCA_SEM3_A", "MCA_SEM3_B"), ("MCA_SEM3_B", "MCA_SEM3_A")].contains (g1, g2) then true
  else if [("ELEC_AD_A1", "ELEC_AD_B1"), ("ELEC_AD_B1", "ELEC_AD_A1")].contains (g1, g2) then true
  else if catDisjoint (getElectiveCategory g1) (getElectiveCategory g2) then true
  else if [("MCA_SEM1_A", "MCA_SEM1_B"), ("MCA_SEM1_B", "MCA_SEM1_A")].contains (g1, g2) then true
  else false

/-- A group record; only the id is consulted by the matrix generator
(`_get_all_group_ids`). -/
structure GroupRecord where
  studentGroupId : String
  deriving Repr, DecidableEq

/-- The loader data consumed by `OverlapMatrixGenerator.__init__`:
regular groups, elective groups and the hierarchy. -/
structure MatrixInput where
  regularGroups : List GroupRecord
  electiveGroups : List GroupRecord
  hierarchy : Hierarchy
  deriving Repr

/-- `OverlapMatrixGenerator._get_all_group_ids`: regular group ids
followed by elective group ids. Construction performs no validation. -/
def allGroupIds (inp : MatrixInput) : List String :=
  inp.regularGroups.map (·.studentGroupId) ++ inp.electiveGroups.map (·.studentGroupId)

/-- The output of `generate_matrix`: the two top-level maps. -/
structure OverlapMatrix where
  cannotOverlapWith : List (String × List String)
  canRunParallelWith : List (String × List String)
  deriving Repr

/-- `OverlapMatrixGenerator.generate_matrix`: for every declared group id,
every other declared id goes to `conflicts` when `_shares_students_with`
holds, otherwise to `parallel` when `_can_run_parallel` holds; both lists
are sorted. -/
def generateMatrix (inp : MatrixInput) : OverlapMatrix :=
  let ids := allGroupIds inp
  { cannotOverlapWith :=
      ids.map fun g =>
        (g, pySorted (ids.filter fun o => sharesStudentsWith inp.hierarchy g o))
    canRunParallelWith :=
      ids.map fun g =>
        (g, pySorted (ids.filter fun o =>
          !sharesStudentsWith inp.hierarchy g o && canRunParallel inp.hierarchy g o)) }

/-- The `cannotOverlapWith` row of a group (empty when the group is not a
key of the matrix). -/
def conflictsOf (m : OverlapMatrix) (g : String) : List String :=
  (dictLookup m.cannotOverlapWith g).getD []

/-- The `canRunParallelWith` row of a group (empty when the group is not a
key of the matrix). -/
def parallelOf (m : OverlapMatrix) (g : String) : List String :=
  (dictLookup m.canRunParallelWith g).getD []

/-! ## Stage 3: `constraint_builder.py` -/

/-- `ConstraintBuilder._get_student_group_conflicts`: union (a Python set,
modelled as dedup) over the assignment's `studentGroupIds` of the matrix
rows that exist, returned as `sorted(list(conflicts))`. -/
def getStudentGroupConflicts (cannotOverlap : List (String × List String))
    (studentGroupIds : List String) : List String :=
  pySortedSet (studentGroupIds.flatMap fun g => (dictLookup cannotOverlap g).getD [])

/-- Modelled from the spec (for comparison with `getStudentGroupConflicts`
only): "union, over all groups in the assignment's `studentGroupIds`, of
`OverlapMatrix.conflicts(group)`, minus the assignment's own groups,
sorted for determinism." -/
def specStudentGroupConflicts (cannotOverlap : List (String × List String))
    (studentGroupIds : List String) : List String :=
  pySortedSet ((studentGroupIds.flatMap fun g => (dictLookup cannotOverlap g).getD []).filter
    fun x => !studentGroupIds.contains x)

/-! ## Stage 6: `analyze_schedule.py` — the schedule verifier

A session record of the enriched timetable.  `day` and `slotId` are read
with `.get` (absent keys give `None`, modelled `none`); the Python
truthiness test `if not day or not slot: continue` also rejects empty
strings.  `facultyId`, `roomId`, `sessionId` and `studentGroupIds` are
indexed directly.  In `_analyze_room_capacity` the room id is read with
`.get('roomId')`; an absent key is modelled by the empty string, which the
source's `if not room_id` test also skips. -/

structure Session where
  sessionId : String
  day : Option String
  slotId : Option String
  roomId : String
  facultyId : String
  studentGroupIds : List String
  deriving Repr, DecidableEq

/-- The guard `if not day or not slot: continue` together with
`time_key = f"{day}-{slot}"`: the placed day and slot of a session, or
`none` when either is missing or empty. -/
def placedAt (s : Session) : Option (String × String) :=
  match s.day, s.slotId with
  | some d, some t => if d != "" && t != "" then some (d, t) else none
  | _, _ => none

/-- Append a value under a key of a Python `defaultdict(list)`,
preserving insertion order. -/
def dictAppend {β : Type} : List (String × List β) → String → β → List (String × List β)
  | [], k, v => [(k, [v])]
  | (k', vs) :: rest, k, v =>
    if k' == k then (k', vs ++ [v]) :: rest else (k', vs) :: dictAppend rest k v

/-- The `faculty_grid` of `ScheduleAnalyzer.analyze`: key
`f"{facultyId}-{day}-{slot}"` to the session ids occupying it; sessions
with a missing day or slot are skipped. -/
def buildFacultyGrid (sessions : List Session) : List (String × List String) :=
  sessions.foldl (fun grid s =>
    match placedAt s with
    | some (d, t) => dictAppend grid (s.facultyId ++ "-" ++ (d ++ "-" ++ t)) s.sessionId
    | none => grid) []

/-- The `room_grid` of `ScheduleAnalyzer.analyze`. -/
def buildRoomGrid (sessions : List Session) : List (String × List String) :=
  sessions.foldl (fun grid s =>
    match placedAt s with
    | some (d, t) => dictAppend grid (s.roomId ++ "-" ++ (d ++ "-" ++ t)) s.sessionId
    | none => grid) []

/-- Python's `key.split('-', 1)` on the character list: the part before
the first `-` and the part after it. -/
def splitFirstDash : List Char → List Char × List Char
  | [] => ([], [])
  | c :: cs =>
    if c == '-' then ([], cs)
    else
      let r := splitFirstDash cs
      (c :: r.1, r.2)

/-- The message built by `_analyze_faculty_conflicts`. -/
def facultyConflictMsg (key : String) (sessions : List String) : String :=
  let parts := splitFirstDash key.data
  "**Faculty Conflict:** `" ++ String.mk parts.1 ++ "` is double-booked at `" ++
    String.mk parts.2 ++ "` in sessions: `" ++ String.intercalate ", " sessions ++ "`."

/-- The message built by `_analyze_room_conflicts`. -/
def roomConflictMsg (key : String) (sessions : List String) : String :=
  let parts := splitFirstDash key.data
  "**Room Conflict:** `" ++ String.mk parts.1 ++ "` is double-booked at `" ++
    String.mk parts.2 ++ "` for sessions: `" ++ String.intercalate ", " sessions ++ "`."

/-- `ScheduleAnalyzer._analyze_faculty_conflicts` applied to the grid the
caller built from the session list. -/
def analyzeFacultyConflicts (sessions : List Session) : List String :=
  (buildFacultyGrid sessions).filterMap fun kv =>
    if 1 < kv.2.length then some (facultyConflictMsg kv.1 kv.2) else none

/-- `ScheduleAnalyzer._analyze_room_conflicts` applied to the grid the
caller built from the session list. -/
def analyzeRoomConflicts (sessions : List Session) : List String :=
  (buildRoomGrid sessions).filterMap fun kv =>
    if 1 < kv.2.length then some (roomConflictMsg kv.1 kv.2) else none

/-- `set.add` on a Python set modelled as a duplicate-free list kept in
insertion order. -/
def setAdd (l : List String) (x : String) : List String :=
  if l.contains x then l else l ++ [x]

/-- `grid[time_key].update(session['studentGroupIds'])` on the
`defaultdict(set)` of `_analyze_student_group_conflicts`. -/
def setUpdate : List (String × List String) → String → List String → List (String × List String)
  | [], k, gs => [(k, gs.foldl setAdd [])]
  | (k', s) :: rest, k, gs =>
    if k' == k then (k', gs.foldl setAdd s) :: rest else (k', s) :: setUpdate rest k gs

/-- The per-timeslot group grid of `_analyze_student_group_conflicts`;
sessions with a missing day or slot are skipped. -/
def buildStudentGroupGrid (sessions : List Session) : List (String × List String) :=
  sessions.foldl (fun grid s =>
    match placedAt s with
    | some (d, t) => setUpdate grid (d ++ "-" ++ t) s.studentGroupIds
    | none => grid) []

/-- The message built by `_analyze_student_group_conflicts`. -/
def studentGroupConflictMsg (g1 g2 timeKey : String) : String :=
  "**Student Group Conflict:** Groups `" ++ g1 ++ "` and `" ++ g2 ++
    "` have an overlap at `" ++ timeKey ++ "`."

/-- The nested pair loop of `_analyze_student_group_conflicts`: for every
ordered pair with the first group earlier in the collected list, report
when the second lies in the first's `cannotOverlapWith` row. -/
def studentGroupPairs (overlapMap : List (String × List String)) (timeKey : String) :
    List String → List String
  | [] => []
  | g1 :: rest =>
    (rest.filterMap fun g2 =>
      if ((dictLookup overlapMap g1).getD []).contains g2 then
        some (studentGroupConflictMsg g1 g2 timeKey)
      else none) ++ studentGroupPairs overlapMap timeKey rest

/-- `ScheduleAnalyzer._analyze_student_group_conflicts`: rebuilds its own
grid of groups per timeslot, pairs groups within each slot holding more
than one group, and returns `sorted(list(set(conflicts)))`. -/
def analyzeStudentGroupConflicts (overlapMap : List (String × List String))
    (sessions : List Session) : List String :=
  pySortedSet ((buildStudentGroupGrid sessions).flatMap fun kv =>
    if 1 < kv.2.length then studentGroupPairs overlapMap kv.1 kv.2 else [])

/-- A room record of `schedulingInput.json` (`rooms_map` values); only
`capacity` is consulted. -/
structure Room where
  roomId : String
  capacity : Nat
  deriving Repr, DecidableEq

/-- A student-group record of `schedulingInput.json`
(`student_groups_map` values); `studentCount` is read with
`.get('studentCount', 0)`, so an absent count is modelled as `0`. -/
structure SGRecord where
  studentGroupId : String
  studentCount : Nat
  deriving Repr, DecidableEq

/-- The message built by `_analyze_room_capacity`. -/
def roomCapacityMsg (sessionId : String) (total : Nat) (roomId : String) (capacity : Nat) :
    String :=
  "**Room Capacity Violation:** Session `" ++ sessionId ++ "` has `" ++ toString total ++
    "` students in room `" ++ roomId ++ "` which only has capacity for `" ++
    toString capacity ++ "`."

/-- `ScheduleAnalyzer._analyze_room_capacity`: every session is examined
(no day/slot guard); a falsy or unknown room id is skipped with
`continue`; unknown group ids contribute no students. -/
def analyzeRoomCapacity (roomsMap : List (String × Room))
    (studentGroupsMap : List (String × SGRecord)) (sessions : List Session) : List String :=
  sessions.foldl (fun violations s =>
    if s.roomId == "" then violations
    else
      match dictLookup roomsMap s.roomId with
      | none => violations
      | some room =>
        let total := s.studentGroupIds.foldl (fun t g =>
          match dictLookup studentGroupsMap g with
          | some rec => t + rec.studentCount
          | none => t) 0
        if room.capacity < total then
          violations ++ [roomCapacityMsg s.sessionId total s.roomId room.capacity]
        else violations) []

/-- `int(slot.replace('S', '').split('+')[0])`: drop every `S`, keep the
characters before the first `+`, read the decimal number.  (Python's
`int` raises on malformed input; slot ids here are `S<n>` or
`S<n>+S<m>`, on which the two agree.) -/
def slotNum (slot : String) : Nat :=
  ((slot.data.filter fun c => c != 'S').takeWhile fun c => c != '+').foldl
    (fun n c => n * 10 + (c.toNat - 48)) 0

/-- Python's lexicographic order on the `(day, slot_num)` tuples that
`schedule.sort()` sorts. -/
def schedLe (a b : String × Nat) : Prop :=
  (charListLtb a.1.data b.1.data || (a.1 == b.1 && decide (a.2 ≤ b.2))) = true

instance : DecidableRel schedLe := fun a b => by
  unfold schedLe; infer_instance

/-- The `faculty_schedules` dict of `_analyze_faculty_workload`: faculty
id to the `(day, slot_num)` tuples of their placed sessions, in session
order; sessions with a missing day or slot are skipped. -/
def facultySchedules (sessions : List Session) : List (String × List (String × Nat)) :=
  sessions.foldl (fun m s =>
    match placedAt s with
    | some (d, t) => dictAppend m s.facultyId (d, slotNum t)
    | none => m) []

/-- The message built by `_analyze_faculty_workload`. -/
def facultyWorkloadMsg (facId : String) (maxConsecutive : Nat) (day : String) : String :=
  "**Faculty Workload:** `" ++ facId ++ "` has more than " ++ toString maxConsecutive ++
    " consecutive sessions on `" ++ day ++ "`."

/-- The scanning loop of `_analyze_faculty_workload`: walk the sorted
schedule keeping the current run length; on the first run longer than the
maximum, emit one issue and `break` (ending the scan for this faculty
altogether). -/
def workloadScan (maxConsecutive : Nat) (facId : String) :
    String × Nat → List (String × Nat) → Nat → List String
  | _, [], _ => []
  | prev, curr :: rest, count =>
    let count' := if prev.1 == curr.1 && curr.2 == prev.2 + 1 then count + 1 else 1
    if maxConsecutive < count' then [facultyWorkloadMsg facId maxConsecutive curr.1]
    else workloadScan maxConsecutive facId curr rest count'

/-- `ScheduleAnalyzer._analyze_faculty_workload`: per faculty, sort the
`(day, slot_num)` tuples, scan for over-long consecutive runs with an
initial count of 1, collect the issues of all faculty and return
`sorted(list(set(issues)))`. -/
def analyzeFacultyWorkload (maxConsecutive : Nat) (sessions : List Session) : List String :=
  pySortedSet ((facultySchedules sessions).flatMap fun kv =>
    match List.insertionSort schedLe kv.2 with
    | [] => []
    | p :: rest => workloadScan maxConsecutive kv.1 p rest 1)

/-- The five finding lists assembled by `ScheduleAnalyzer.analyze` (the
markdown rendering around them is presentation only). -/
structure AnalyzerReport where
  facultyConflicts : List String
  roomConflicts : List String
  studentGroupConflicts : List String
  capacityViolations : List String
  workloadIssues : List String
  deriving Repr, DecidableEq

/-- `ScheduleAnalyzer.analyze`: run the five checks over the session list
and return the full report.  Total: every input yields a report. -/
def analyzeAll (roomsMap : List (String × Room)) (studentGroupsMap : List (String × SGRecord))
    (overlapMap : List (String × List String)) (maxConsecutive : Nat)
    (sessions : List Session) : AnalyzerReport :=
  { facultyConflicts := analyzeFacultyConflicts sessions
    roomConflicts := analyzeRoomConflicts sessions
    studentGroupConflicts := analyzeStudentGroupConflicts overlapMap sessions
    capacityViolations := analyzeRoomCapacity roomsMap studentGroupsMap sessions
    workloadIssues := analyzeFacultyWorkload maxConsecutive sessions }

/-! ## Concrete fixtures used by witnesses and counterexamples -/

/-- Shorthand for a fully placed session. -/
def mkS (sid d t room fac : String) (gs : List String) : Session :=
  { sessionId := sid, day := some d, slotId := some t, roomId := room, facultyId := fac,
    studentGroupIds := gs }

/-- A small hierarchy in the shape of the repository's data: two sections,
two AD elective groups under them, one mixed SS group with both sections
as parents. -/
def exHierarchy : Hierarchy :=
  [("MCA_SEM3_A", ⟨none, none, ["ELEC_AD_A1", "ELEC_SS_G1"]⟩),
   ("MCA_SEM3_B", ⟨none, none, ["ELEC_AD_B1", "ELEC_SS_G1"]⟩),
   ("ELEC_AD_A1", ⟨some "MCA_SEM3_A", none, []⟩),
   ("ELEC_AD_B1", ⟨some "MCA_SEM3_B", none, []⟩),
   ("ELEC_SS_G1", ⟨none, some ["MCA_SEM3_A", "MCA_SEM3_B"], []⟩)]

/-- The loader view of the small fixture. -/
def exInput : MatrixInput :=
  { regularGroups := [⟨"MCA_SEM3_A"⟩, ⟨"MCA_SEM3_B"⟩]
    electiveGroups := [⟨"ELEC_AD_A1"⟩, ⟨"ELEC_AD_B1"⟩, ⟨"ELEC_SS_G1"⟩]
    hierarchy := exHierarchy }

/-- Two unrelated groups: no hierarchy entries, no elective categories. -/
def neitherInput : MatrixInput :=
  { regularGroups := [⟨"GRP_X"⟩, ⟨"GRP_Y"⟩], electiveGroups := [], hierarchy := [] }

/-- An input whose hierarchy references the undeclared id `GHOST_GROUP`. -/
def c8Input : MatrixInput :=
  { regularGroups := [⟨"MCA_SEM1_A"⟩], electiveGroups := []
    hierarchy := [("GHOST_GROUP", ⟨none, none, ["MCA_SEM1_A"]⟩)] }

/-- A one-row overlap matrix in which group `A` conflicts with itself and
with `B`. -/
def c1Matrix : List (String × List String) := [("A", ["A", "B"])]

/-- A session referencing the unknown room id `NOPE` and the unknown
group id `GHOST`. -/
def c2Session : Session := mkS "T1" "Mon" "S1" "NOPE" "F1" ["GHOST"]

/-- A rooms map holding the single room `R1` with capacity 10. -/
def smallRoomsMap : List (String × Room) := [("R1", ⟨"R1", 10⟩)]

/-- A student-groups map holding the single group `G1` with 65 students. -/
def bigGroupsMap : List (String × SGRecord) := [("G1", ⟨"G1", 65⟩)]

/-- An unplaced session (no day, no slot) whose 65 students exceed room
`R1`'s capacity of 10. -/
def c3Session : Session :=
  { sessionId := "T9", day := none, slotId := none, roomId := "R1", facultyId := "F1",
    studentGroupIds := ["G1"] }

/-- Faculty `F1` with four contiguous single slots on each of two days,
against a configured maximum of 3. -/
def c4Sessions : List Session :=
  [mkS "T1" "Mon" "S1" "R1" "F1" ["G1"], mkS "T2" "Mon" "S2" "R1" "F1" ["G1"],
   mkS "T3" "Mon" "S3" "R1" "F1" ["G1"], mkS "T4" "Mon" "S4" "R1" "F1" ["G1"],
   mkS "T5" "Tue" "S1" "R1" "F1" ["G1"], mkS "T6" "Tue" "S2" "R1" "F1" ["G1"],
   mkS "T7" "Tue" "S3" "R1" "F1" ["G1"], mkS "T8" "Tue" "S4" "R1" "F1" ["G1"]]

/-- A double-slot session at `Mon S5+S6` and a single-slot session at
`Mon S6` (the second half), with the same faculty and the same room. -/
def c5Sessions : List Session :=
  [mkS "T1" "Mon" "S5+S6" "R1" "F1" ["G1"], mkS "T2" "Mon" "S6" "R1" "F1" ["G2"]]

/-- A rooms map for the double-slot fixture: `R1` is large enough. -/
def c5RoomsMap : List (String × Room) := [("R1", ⟨"R1", 100⟩)]

/-- A student-groups map for the double-slot fixture. -/
def c5GroupsMap : List (String × SGRecord) := [("G1", ⟨"G1", 30⟩), ("G2", ⟨"G2", 30⟩)]

/-- An overlap matrix declaring `G1` and `G2` mutually conflicting. -/
def c5OverlapMap : List (String × List String) :=
  [("G1", ["G1", "G2"]), ("G2", ["G1", "G2"])]

/-- A self-conflicting one-group overlap matrix. -/
def selfOverlapMap : List (String × List String) := [("G1", ["G1"])]

/-- Two sessions double-booking the same single group `G1` at `Mon S1`
with different faculty and different rooms. -/
def c10Session1 : Session := mkS "W1" "Mon" "S1" "R1" "F1" ["G1"]

/-- The second of the pair: same day and slot, same group, other faculty
and room. -/
def c10Session2 : Session := mkS "W2" "Mon" "S1" "R2" "F2" ["G1"]

/-! ## Order theory of the string comparison used by `sorted` -/

theorem charListLtb_nil_right : ∀ y, charListLtb y [] = false
  | [] => rfl
  | _ :: _ => rfl

theorem charListLtb_asymm : ∀ x y, charListLtb x y = true → charListLtb y x = false
  | x, [] => by
    intro h
    rw [charListLtb_nil_right] at h
    simp at h
  | [], b :: bs => fun _ => rfl
  | a :: as, b :: bs => by
    by_cases h : a = b
    · subst h
      simp only [charListLtb, beq_self_eq_true, if_true]
      exact charListLtb_asymm as bs
    · have h1 : (a == b) = false := beq_eq_false_iff_ne.mpr h
      have h2 : (b == a) = false := beq_eq_false_iff_ne.mpr (Ne.symm h)
      intro h3
      simp only [charListLtb, h1, h2, Bool.false_eq_true, if_false,
        decide_eq_true_eq] at h3 ⊢
      simp only [decide_eq_false_iff_not]
      omega

theorem charListLtb_trans :
    ∀ x y z, charListLtb x y = true → charListLtb y z = true → charListLtb x z = true
  | _, _, [] => by
    intro _ h2
    rw [charListLtb_nil_right] at h2
    simp at h2
  | [], _, _ :: _ => fun _ _ => rfl
  | _ :: _, [], _ :: _ => by
    intro h1 _
    rw [charListLtb_nil_right] at h1
    simp at h1
  | a :: as, b :: bs, c :: cs => by
    by_cases hab : a = b
    · subst hab
      by_cases hac : a = c
      · subst hac
        simp only [charListLtb, beq_self_eq_true, if_true]
        exact charListLtb_trans as bs cs
      · have h1 : (a == c) = false := beq_eq_false_iff_ne.mpr hac
        simp only [charListLtb, beq_self_eq_true, if_true, h1, Bool.false_eq_true, if_false]
        intro _ h3
        exact h3
    · have h1 : (a == b) = false := beq_eq_false_iff_ne.mpr hab
      simp only [charListLtb, h1, Bool.false_eq_true, if_false, decide_eq_true_eq]
      intro h2
      by_cases hbc : b = c
      · subst hbc
        intro _
        simp only [h1, Bool.false_eq_true, if_false, decide_eq_true_eq]
        exact h2
      · have h3 : (b == c) = false := beq_eq_false_iff_ne.mpr hbc
        simp only [h3, Bool.false_eq_true, if_false, decide_eq_true_eq]
        intro h4
        have hac : ¬a = c := by
          intro e
          rw [e] at h2
          omega
        simp only [beq_eq_false_iff_ne.mpr hac, Bool.false_eq_true, if_false,
          decide_eq_true_eq]
        omega

theorem charListLtb_connex :
    ∀ x y, charListLtb x y = false → charListLtb y x = false → x = y
  | [], [] => fun _ _ => rfl
  | [], _ :: _ => by
    intro h1 _
    simp [charListLtb] at h1
  | _ :: _, [] => by
    intro _ h2
    simp [charListLtb] at h2
  | a :: as, b :: bs => by
    by_cases h : a = b
    · subst h
      simp only [charListLtb, beq_self_eq_true, if_true]
      intro h1 h2
      rw [charListLtb_connex as bs h1 h2]
    · have h1 : (a == b) = false := beq_eq_false_iff_ne.mpr h
      have h2 : (b == a) = false := beq_eq_false_iff_ne.mpr (Ne.symm h)
      simp only [charListLtb, h1, h2, Bool.false_eq_true, if_false,
        decide_eq_false_iff_not]
      intro h3 h4
      exfalso
      apply h
      apply Char.ext
      apply UInt32.toNat.inj
      show a.toNat = b.toNat
      omega

theorem pyStrLe_total (a b : String) : pyStrLe a b ∨ pyStrLe b a := by
  unfold pyStrLe strLeb
  by_cases h : charListLtb b.data a.data = true
  · right
    rw [charListLtb_asymm _ _ h]
    rfl
  · left
    rw [Bool.not_eq_true] at h
    rw [h]
    rfl

theorem pyStrLe_trans (a b c : String) (h1 : pyStrLe a b) (h2 : pyStrLe b c) : pyStrLe a c := by
  unfold pyStrLe strLeb at *
  simp only [Bool.not_eq_true'] at *
  by_cases hca : charListLtb c.data a.data = true
  · exfalso
    by_cases hbc : charListLtb b.data c.data = true
    · have := charListLtb_trans _ _ _ hbc hca
      rw [h1] at this
      exact Bool.false_ne_true this
    · rw [Bool.not_eq_true] at hbc
      have : b.data = c.data := charListLtb_connex _ _ hbc h2
      rw [← this] at hca
      rw [h1] at hca
      exact Bool.false_ne_true hca
  · rw [Bool.not_eq_true] at hca
    exact hca

theorem mem_pySorted {l : List String} {a : String} : a ∈ pySorted l ↔ a ∈ l :=
  (List.perm_insertionSort _ l).mem_iff

theorem mem_pySortedSet {l : List String} {a : String} : a ∈ pySortedSet l ↔ a ∈ l := by
  unfold pySortedSet
  rw [(List.perm_insertionSort _ _).mem_iff, List.mem_dedup]

theorem sorted_pySortedSet (l : List String) : List.Sorted pyStrLe (pySortedSet l) := by
  letI : IsTotal String pyStrLe := ⟨pyStrLe_total⟩
  letI : IsTrans String pyStrLe := ⟨pyStrLe_trans⟩
  exact List.sorted_insertionSort pyStrLe l.dedup

theorem nodup_pySortedSet (l : List String) : (pySortedSet l).Nodup :=
  ((List.perm_insertionSort pyStrLe l.dedup).nodup_iff).mpr (List.nodup_dedup l)

/-! ## Lemmas about dict lookup and the symmetry of the pairwise rules -/

theorem dictLookup_map {β : Type} (F : String → β) (k : String) :
    ∀ ids : List String,
      dictLookup (ids.map fun a => (a, F a)) k = if k ∈ ids then some (F k) else none
  | [] => by simp [dictLookup]
  | a :: rest => by
    simp only [List.map_cons, dictLookup, List.mem_cons]
    by_cases h : a = k
    · subst h; simp
    · have hb : (a == k) = false := beq_eq_false_iff_ne.mpr h
      have h2 : ¬k = a := fun e => h e.symm
      rw [hb, dictLookup_map F k rest]
      simp [h2]

theorem map_fst_pairs {β : Type} (F : String → β) :
    ∀ ids : List String, (ids.map fun a => (a, F a)).map Prod.fst = ids
  | [] => rfl
  | a :: rest => by
    simp only [List.map_cons]
    rw [map_fst_pairs F rest]

theorem catDisjoint_comm (c1 c2 : Option String) : catDisjoint c1 c2 = catDisjoint c2 c1 := by
  cases c1 <;> cases c2 <;> simp only [catDisjoint, bne]
  rw [BEq.comm]

theorem sameSingleParent_comm (h : Hierarchy) (g1 g2 : String) :
    sameSingleParent h g1 g2 = sameSingleParent h g2 g1 := by
  unfold sameSingleParent
  cases getParent h g1 <;> cases getParent h g2 <;> simp only []
  rw [BEq.comm]

theorem mixedOverlap2_eq (h : Hierarchy) (g1 g2 : String) :
    mixedOverlap2 h g1 g2 = mixedOverlap1 h g2 g1 := by
  have hfun :
      (fun p => (getChildren h p).contains g1 &&
        ((getElectiveCategory g1).isNone ||
          getElectiveCategory g1 == getElectiveCategory g2)) =
      (fun p => (getChildren h p).contains g1 &&
        ((getElectiveCategory g1).isNone ||
          getElectiveCategory g2 == getElectiveCategory g1)) := by
    funext p; rw [BEq.comm]
  simp only [mixedOverlap1, mixedOverlap2]
  rw [hfun]

theorem sharesChain_swap (a b c d e f g : Bool) :
    sharesChain a b c d e f g = sharesChain a b d c e g f := by
  cases a <;> cases b <;> cases c <;> cases d <;> cases e <;> cases f <;> cases g <;> rfl

theorem sharesStudentsWith_comm (h : Hierarchy) (g1 g2 : String) :
    sharesStudentsWith h g1 g2 = sharesStudentsWith h g2 g1 := by
  unfold sharesStudentsWith
  rw [sharesChain_swap, BEq.comm,
    catDisjoint_comm (getElectiveCategory g1) (getElectiveCategory g2),
    sameSingleParent_comm h g1 g2, mixedOverlap2_eq h g1 g2, ← mixedOverlap2_eq h g2 g1]

theorem contains_pair_comm (a b x y : String) :
    ([(a, b), (b, a)].contains (x, y)) = ([(a, b), (b, a)].contains (y, x)) := by
  rw [Bool.eq_iff_iff, List.contains, List.contains, List.elem_iff, List.elem_iff]
  simp only [List.mem_cons, List.not_mem_nil, or_false, Prod.mk.injEq]
  tauto

theorem canRunParallel_comm (h : Hierarchy) (g1 g2 : String) :
    canRunParallel h g1 g2 = canRunParallel h g2 g1 := by
  unfold canRunParallel
  rw [sharesStudentsWith_comm h g1 g2,
    catDisjoint_comm (getElectiveCategory g1) (getElectiveCategory g2),
    contains_pair_comm "MCA_SEM3_A" "MCA_SEM3_B" g1 g2,
    contains_pair_comm "ELEC_AD_A1" "ELEC_AD_B1" g1 g2,
    contains_pair_comm "MCA_SEM1_A" "MCA_SEM1_B" g1 g2]

theorem mem_conflictsOf (inp : MatrixInput) (g x : String) :
    x ∈ conflictsOf (generateMatrix inp) g ↔
      g ∈ allGroupIds inp ∧ x ∈ allGroupIds inp ∧
        sharesStudentsWith inp.hierarchy g x = true := by
  unfold conflictsOf generateMatrix
  simp only []
  rw [dictLookup_map]
  by_cases hg : g ∈ allGroupIds inp
  · simp [hg, mem_pySorted, List.mem_filter]
  · simp [hg]

theorem mem_parallelOf (inp : MatrixInput) (g x : String) :
    x ∈ parallelOf (generateMatrix inp) g ↔
      g ∈ allGroupIds inp ∧ x ∈ allGroupIds inp ∧
        (!sharesStudentsWith inp.hierarchy g x && canRunParallel inp.hierarchy g x) = true := by
  unfold parallelOf generateMatrix
  simp only []
  rw [dictLookup_map]
  by_cases hg : g ∈ allGroupIds inp
  · simp [hg, mem_pySorted, List.mem_filter]
  · simp [hg]

/-! ## Lemmas about the verifier's session folds -/

theorem foldl_skip_middle {α β : Type} (f : β → α → β) (init : β) (pre post : List α) (s : α)
    (h : ∀ b, f b s = b) :
    (pre ++ s :: post).foldl f init = (pre ++ post).foldl f init := by
  rw [List.foldl_append, List.foldl_append, List.foldl_cons, h]

/-! ## Claim theorems -/

/-- C1, counterexample: for the assignment with `studentGroupIds = ["A"]`
against the one-row matrix `A ↦ [A, B]`, the code keeps the assignment's
own group `A` in `studentGroupConflicts` (`["A", "B"]`), while the claimed
formula (union minus the assignment's own groups) gives `["B"]`. -/
theorem C1_counterexample :
    getStudentGroupConflicts c1Matrix ["A"] = ["A", "B"] ∧
      specStudentGroupConflicts c1Matrix ["A"] = ["B"] :=
  ⟨rfl, rfl⟩

/-- C1, amended: `studentGroupConflicts` is the sorted duplicate-free
union, over the assignment's `studentGroupIds`, of the matrix rows that
exist — the assignment's own group ids are NOT removed. -/
theorem C1_student_group_conflicts_union (m : List (String × List String))
    (ids : List String) :
    (∀ x, x ∈ getStudentGroupConflicts m ids ↔
      ∃ g ∈ ids, x ∈ (dictLookup m g).getD []) ∧
      List.Sorted pyStrLe (getStudentGroupConflicts m ids) ∧
      (getStudentGroupConflicts m ids).Nodup := by
  refine ⟨fun x => ?_, sorted_pySortedSet _, nodup_pySortedSet _⟩
  unfold getStudentGroupConflicts
  rw [mem_pySortedSet, List.mem_flatMap]

/-- C2, counterexample: a session referencing the unknown room id `NOPE`
and the unknown group id `GHOST` produces no finding of any kind — there
is no unresolvable-reference finding; the references are silently
ignored (the report is still returned in full). -/
theorem C2_counterexample :
    analyzeAll smallRoomsMap bigGroupsMap [] 3 [c2Session] =
      { facultyConflicts := [], roomConflicts := [], studentGroupConflicts := [],
        capacityViolations := [], workloadIssues := [] } :=
  rfl

/-- C2, amended: a session whose room id is not in the rooms map is
silently skipped by the capacity check (it yields no finding at all);
the verifier is total and always returns the full report. -/
theorem C2_unknown_room_silently_skipped (roomsMap : List (String × Room))
    (studentGroupsMap : List (String × SGRecord)) (pre post : List Session) (s : Session)
    (h : dictLookup roomsMap s.roomId = none) :
    analyzeRoomCapacity roomsMap studentGroupsMap (pre ++ s :: post) =
      analyzeRoomCapacity roomsMap studentGroupsMap (pre ++ post) := by
  unfold analyzeRoomCapacity
  refine foldl_skip_middle _ _ _ _ _ (fun b => ?_)
  by_cases he : s.roomId == ""
  · simp [he]
  · simp only [he, h]
    simp

/-- C2, witness for the amended theorem at the concrete bad session. -/
theorem C2_witness :
    analyzeRoomCapacity smallRoomsMap bigGroupsMap ([] ++ c2Session :: []) =
      analyzeRoomCapacity smallRoomsMap bigGroupsMap ([] ++ []) :=
  C2_unknown_room_silently_skipped smallRoomsMap bigGroupsMap [] [] c2Session rfl

/-- C3, counterexample: the unplaced session `c3Session` (no day, no
slot) is NOT skipped by the room-capacity check — it yields a capacity
finding. -/
theorem C3_counterexample :
    placedAt c3Session = none ∧
      (analyzeRoomCapacity smallRoomsMap bigGroupsMap [c3Session]).length = 1 :=
  ⟨rfl, rfl⟩

/-- C3, amended: a session with a missing day or slot contributes to no
faculty double-booking, room double-booking or student-group overlap
finding; the room-capacity check, however, examines every session
regardless of day and slot. -/
theorem C3_unplaced_skipped_by_conflict_checks (overlapMap : List (String × List String))
    (pre post : List Session) (s : Session) (h : placedAt s = none) :
    analyzeFacultyConflicts (pre ++ s :: post) = analyzeFacultyConflicts (pre ++ post) ∧
      analyzeRoomConflicts (pre ++ s :: post) = analyzeRoomConflicts (pre ++ post) ∧
      analyzeStudentGroupConflicts overlapMap (pre ++ s :: post) =
        analyzeStudentGroupConflicts overlapMap (pre ++ post) := by
  have hf : buildFacultyGrid (pre ++ s :: post) = buildFacultyGrid (pre ++ post) := by
    unfold buildFacultyGrid
    exact foldl_skip_middle _ _ _ _ _ (fun b => by simp [h])
  have hr : buildRoomGrid (pre ++ s :: post) = buildRoomGrid (pre ++ post) := by
    unfold buildRoomGrid
    exact foldl_skip_middle _ _ _ _ _ (fun b => by simp [h])
  have hg : buildStudentGroupGrid (pre ++ s :: post) = buildStudentGroupGrid (pre ++ post) := by
    unfold buildStudentGroupGrid
    exact foldl_skip_middle _ _ _ _ _ (fun b => by simp [h])
  refine ⟨?_, ?_, ?_⟩
  · unfold analyzeFacultyConflicts; rw [hf]
  · unfold analyzeRoomConflicts; rw [hr]
  · unfold analyzeStudentGroupConflicts; rw [hg]

/-- C3, witness for the amended theorem at the concrete unplaced
session. -/
theorem C3_witness :
    analyzeFacultyConflicts ([] ++ c3Session :: []) = analyzeFacultyConflicts ([] ++ []) ∧
      analyzeRoomConflicts ([] ++ c3Session :: []) = analyzeRoomConflicts ([] ++ []) ∧
      analyzeStudentGroupConflicts [] ([] ++ c3Session :: []) =
        analyzeStudentGroupConflicts [] ([] ++ []) :=
  C3_unplaced_skipped_by_conflict_checks [] [] [] c3Session rfl

/-- C4, code evaluated at the failing input: faculty `F1` has runs of 4
contiguous slots on both `Mon` and `Tue` against a maximum of 3, yet the
scan emits exactly one finding (for `Mon`) because the `break` leaves the
whole per-faculty loop, not just the offending day. -/
theorem C4_one_finding_despite_two_offending_days :
    analyzeFacultyWorkload 3 c4Sessions = [facultyWorkloadMsg "F1" 3 "Mon"] :=
  rfl

/-- C5, code evaluated at the failing input: a double-slot session at
`Mon S5+S6` and a single-slot session at `Mon S6` with the same faculty
`F1`, the same room `R1` and groups declared conflicting in the overlap
matrix produce NO finding at all: the combined slot id forms the atomic
grid keys `...-Mon-S5+S6`, distinct from `...-Mon-S6`, in every index. -/
theorem C5_double_slot_evades_detection :
    analyzeAll c5RoomsMap c5GroupsMap c5OverlapMap 3 c5Sessions =
      { facultyConflicts := [], roomConflicts := [], studentGroupConflicts := [],
        capacityViolations := [], workloadIssues := [] } :=
  rfl

/-- C6: two distinct groups carrying different non-none elective
categories never share students, and the second never appears in the
first's `cannotOverlapWith` row, whatever the hierarchy says. -/
theorem C6_disjoint_categories_never_conflict (inp : MatrixInput) (g1 g2 c1 c2 : String)
    (hne : g1 ≠ g2) (h1 : getElectiveCategory g1 = some c1)
    (h2 : getElectiveCategory g2 = some c2) (hcc : c1 ≠ c2) :
    sharesStudentsWith inp.hierarchy g1 g2 = false ∧
      g2 ∉ conflictsOf (generateMatrix inp) g1 := by
  have hb : (g1 == g2) = false := beq_eq_false_iff_ne.mpr hne
  have hc : catDisjoint (getElectiveCategory g1) (getElectiveCategory g2) = true := by
    rw [h1, h2]; simp [catDisjoint, hcc]
  have hs : sharesStudentsWith inp.hierarchy g1 g2 = false := by
    unfold sharesStudentsWith sharesChain
    rw [hb, hc]
    simp
  refine ⟨hs, ?_⟩
  rw [mem_conflictsOf]
  simp [hs]

/-- C6, witness: in the fixture hierarchy the AD group `ELEC_AD_A1` and
the SS group `ELEC_SS_G1` do not conflict, although the hierarchy links
both to `MCA_SEM3_A`. -/
theorem C6_witness :
    sharesStudentsWith exInput.hierarchy "ELEC_AD_A1" "ELEC_SS_G1" = false ∧
      "ELEC_SS_G1" ∉ conflictsOf (generateMatrix exInput) "ELEC_AD_A1" :=
  C6_disjoint_categories_never_conflict exInput "ELEC_AD_A1" "ELEC_SS_G1" "AD" "SS"
    (by decide) rfl rfl (by decide)

/-- C7: the generated matrix is symmetric in both relations — membership
of `g2` in `g1`'s `cannotOverlapWith` row is equivalent to membership of
`g1` in `g2`'s, and likewise for `canRunParallelWith`. -/
theorem C7_matrix_symmetric (inp : MatrixInput) (g1 g2 : String) :
    (g2 ∈ conflictsOf (generateMatrix inp) g1 ↔ g1 ∈ conflictsOf (generateMatrix inp) g2) ∧
      (g2 ∈ parallelOf (generateMatrix inp) g1 ↔ g1 ∈ parallelOf (generateMatrix inp) g2) := by
  constructor
  · rw [mem_conflictsOf, mem_conflictsOf, sharesStudentsWith_comm inp.hierarchy g1 g2]
    tauto
  · rw [mem_parallelOf, mem_parallelOf, sharesStudentsWith_comm inp.hierarchy g1 g2,
      canRunParallel_comm inp.hierarchy g1 g2]
    tauto

/-- C8, counterexample: the hierarchy of `c8Input` references
`GHOST_GROUP`, which is not among the declared group ids, yet
construction and matrix generation succeed (no error path exists in the
source). -/
theorem C8_counterexample :
    dictLookup c8Input.hierarchy "GHOST_GROUP" ≠ none ∧
      "GHOST_GROUP" ∉ allGroupIds c8Input ∧
      (generateMatrix c8Input).cannotOverlapWith = [("MCA_SEM1_A", ["MCA_SEM1_A"])] := by
  refine ⟨by decide, by decide, rfl⟩

/-- C8, amended: construction never validates hierarchy ids and cannot
fail; for every input — including one whose hierarchy mentions unknown
ids — the matrix is keyed exactly by the declared group ids. -/
theorem C8_no_validation (inp : MatrixInput) :
    (generateMatrix inp).cannotOverlapWith.map Prod.fst = allGroupIds inp ∧
      (generateMatrix inp).canRunParallelWith.map Prod.fst = allGroupIds inp := by
  exact ⟨map_fst_pairs _ _, map_fst_pairs _ _⟩

/-- C9: no group is placed in both the `cannotOverlapWith` and the
`canRunParallelWith` row of another (the intersection of the two rows is
always empty), and landing in neither row is possible: in
`neitherInput`, `GRP_Y` is in neither row of `GRP_X`. -/
theorem C9_exclusive_and_neither_possible :
    (∀ (inp : MatrixInput) (g1 : String),
      conflictsOf (generateMatrix inp) g1 ∩ parallelOf (generateMatrix inp) g1 = []) ∧
      (((conflictsOf (generateMatrix neitherInput) "GRP_X").contains "GRP_Y" ||
        (parallelOf (generateMatrix neitherInput) "GRP_X").contains "GRP_Y") = false) := by
  constructor
  · intro inp g1
    rw [List.eq_nil_iff_forall_not_mem]
    intro x hx
    rw [List.mem_inter_iff, mem_conflictsOf, mem_parallelOf] at hx
    obtain ⟨⟨-, -, hs⟩, ⟨-, -, hp⟩⟩ := hx
    rw [hs] at hp
    simp at hp
  · decide

/-- C10: two sessions at the same day and slot that carry the same single
student group produce no student-group-overlap finding, whatever the
overlap matrix says (the per-slot collection is a set and only pairs of
distinct groups are checked). -/
theorem C10_identical_group_not_reported (m : List (String × List String)) (s1 s2 : Session)
    (g d t : String) (hd : d ≠ "") (ht : t ≠ "")
    (h1d : s1.day = some d) (h1t : s1.slotId = some t) (h1g : s1.studentGroupIds = [g])
    (h2d : s2.day = some d) (h2t : s2.slotId = some t) (h2g : s2.studentGroupIds = [g]) :
    analyzeStudentGroupConflicts m [s1, s2] = [] := by
  have hp1 : placedAt s1 = some (d, t) := by
    unfold placedAt; rw [h1d, h1t]; simp [hd, ht]
  have hp2 : placedAt s2 = some (d, t) := by
    unfold placedAt; rw [h2d, h2t]; simp [hd, ht]
  unfold analyzeStudentGroupConflicts buildStudentGroupGrid
  simp [hp1, hp2, h1g, h2g, setUpdate, setAdd, pySortedSet]

/-- C10, witness: the concrete double-booked pair of sessions on group
`G1` at `Mon S1`, against the self-conflicting matrix. -/
theorem C10_witness :
    analyzeStudentGroupConflicts selfOverlapMap [c10Session1, c10Session2] = [] :=
  C10_identical_group_not_reported selfOverlapMap c10Session1 c10Session2 "G1" "Mon" "S1"
    (by decide) (by decide) rfl rfl rfl rfl rfl rfl

end Timetable
